import Mathlib

/-!
Verification of the GrinPlusPlus node against its specification.

The development shallowly embeds the parts of the C++ source that the
verified properties touch: the block validators
(src/BlockChain/Validators/BlockValidator.cpp and
src/src/BlockChain/Validators/BlockValidator.cpp), the slate signature
utilities (src/src/Wallet/SlateBuilder/SignatureUtil.h), the foreign RPC
server registration (src/src/API/Node/NodeServer.cpp), the wallet restore
path (src/Wallet/WalletManagerImpl.cpp), and the server status loop.

The Crypto library (a secp256k1-zkp wrapper) is not among the source
files; following the specification's description of Pedersen commitments
(v·H + r·G) and point addition, commitments and public keys are modelled
in the free additive group generated by H and G, i.e. by their coefficient
pairs. Machine integers are modelled as naturals with explicit reduction
modulo 2^64 where C++ unsigned arithmetic wraps.
-/

namespace GrinPP

/-- Modelled from the spec: a 33-byte Pedersen commitment `v·H + r·G` is
represented by its coefficient pair `(v, r)` in the free additive group on
the generators H and G (the Crypto library is not among the source files). -/
abbrev Commitment := ℤ × ℤ

/-- Modelled from the spec: a transparent multiple `c·H` of the value
generator H. -/
def scaleH (c : ℤ) : Commitment := (c, 0)

/-- Modelled from the spec: a multiple `c·G` of the blinding generator G. -/
def scaleG (c : ℤ) : Commitment := (0, c)

/-- Modelled from the spec: a 32-byte blinding-factor scalar. -/
abbrev BlindingFactor := ℤ

/-- Modelled from the spec: a public key (curve point `r·G`), represented by
its scalar coefficient in the free model. -/
abbrev PublicKey := ℤ

/-- A 32-byte Blake2b hash, treated as an abstract value. -/
abbrev Hash := ℕ

/-- A full (non-compact) Schnorr signature, treated as an abstract value. -/
abbrev Signature := ℕ

/-- A compact Schnorr signature, treated as an abstract value. -/
abbrev CompactSignature := ℕ

/-- Modelled from the spec: `commit_sum(pos, neg)`, the sum of the positive
commitments minus the sum of the negative ones (Crypto::AddCommitments). -/
def Crypto.AddCommitments (positive negative : List Commitment) : Commitment :=
  positive.sum - negative.sum

/-- Modelled from the spec: `commit(v, 0)`, a transparent commitment to a
value with a zero blinding factor (Crypto::CommitTransparent). -/
def Crypto.CommitTransparent (value : ℕ) : Commitment := ((value : ℤ), 0)

/-- Modelled from the spec: `add_blinding_factors(pos, neg)`
(Crypto::AddBlindingFactors); in the scalar model the sum always exists, so
the C++ null-pointer failure branch never fires. -/
def Crypto.AddBlindingFactors (positive negative : List BlindingFactor) :
    Option BlindingFactor :=
  some (positive.sum - negative.sum)

/-- Modelled from the spec: point addition of public keys
(Crypto::AddPublicKeys). -/
def Crypto.AddPublicKeys (publicKeys : List PublicKey) : PublicKey :=
  publicKeys.sum

/-- Modelled from the spec: the block reward constant `Consensus::REWARD`
(Consensus/Common.h is not among the source files). -/
def Consensus.REWARD : ℕ := 60000000000

/-- The coinbase bit of `EOutputFeatures` (`COINBASE_OUTPUT`). -/
def EOutputFeatures.COINBASE_OUTPUT : ℕ := 1

/-- The coinbase bit of `EKernelFeatures` (`COINBASE_KERNEL`). -/
def EKernelFeatures.COINBASE_KERNEL : ℕ := 1

/-- TransactionInput: { features, commitment } (rangeproof-free reference to
an unspent output). -/
structure TransactionInput where
  features : ℕ
  commitment : Commitment
deriving DecidableEq

/-- TransactionOutput: { features, commitment }; the 675-byte rangeproof is
not consulted by any embedded operation and is omitted. -/
structure TransactionOutput where
  features : ℕ
  commitment : Commitment
deriving DecidableEq

/-- `output.IsCoinbase()`: the COINBASE_OUTPUT feature bit is set. -/
def TransactionOutput.IsCoinbase (output : TransactionOutput) : Bool :=
  (output.features &&& EOutputFeatures.COINBASE_OUTPUT)
    == EOutputFeatures.COINBASE_OUTPUT

/-- TransactionKernel: { features, fee, lock_height, excess_commitment };
the excess signature is not consulted by any embedded operation. -/
structure TransactionKernel where
  features : ℕ
  fee : ℕ
  lockHeight : ℕ
  excessCommitment : Commitment
deriving DecidableEq

/-- `kernel.IsCoinbase()`: the COINBASE_KERNEL feature bit is set. -/
def TransactionKernel.IsCoinbase (kernel : TransactionKernel) : Bool :=
  (kernel.features &&& EKernelFeatures.COINBASE_KERNEL)
    == EKernelFeatures.COINBASE_KERNEL

/-- `kernel.GetLockHeight()`. -/
def TransactionKernel.GetLockHeight (kernel : TransactionKernel) : ℕ :=
  kernel.lockHeight

/-- `kernel.GetFee()`. -/
def TransactionKernel.GetFee (kernel : TransactionKernel) : ℕ := kernel.fee

/-- `kernel.GetExcessCommitment()`. -/
def TransactionKernel.GetExcessCommitment (kernel : TransactionKernel) :
    Commitment :=
  kernel.excessCommitment

/-- TransactionBody: ordered sequences of inputs, outputs and kernels. -/
structure TransactionBody where
  inputs : List TransactionInput
  outputs : List TransactionOutput
  kernels : List TransactionKernel
deriving DecidableEq

/-- BlockHeader, restricted to the fields the embedded validators read:
the height and the total kernel offset. -/
structure BlockHeader where
  height : ℕ
  totalKernelOffset : BlindingFactor
deriving DecidableEq

/-- FullBlock (include/Core/Models/FullBlock.h): header + body plus the
mutable `m_validated` flag, made an explicit field. -/
structure FullBlock where
  header : BlockHeader
  body : TransactionBody
  validated : Bool
deriving DecidableEq

/-- `block.GetBlockHeader()`. -/
def FullBlock.GetBlockHeader (block : FullBlock) : BlockHeader := block.header

/-- `block.GetTransactionBody()`. -/
def FullBlock.GetTransactionBody (block : FullBlock) : TransactionBody :=
  block.body

/-- `block.GetInputs()`. -/
def FullBlock.GetInputs (block : FullBlock) : List TransactionInput :=
  block.body.inputs

/-- `block.GetOutputs()`. -/
def FullBlock.GetOutputs (block : FullBlock) : List TransactionOutput :=
  block.body.outputs

/-- `block.GetKernels()`. -/
def FullBlock.GetKernels (block : FullBlock) : List TransactionKernel :=
  block.body.kernels

/-- `block.GetInputCommitments()`. -/
def FullBlock.GetInputCommitments (block : FullBlock) : List Commitment :=
  block.GetInputs.map TransactionInput.commitment

/-- `block.GetOutputCommitments()`. -/
def FullBlock.GetOutputCommitments (block : FullBlock) : List Commitment :=
  block.GetOutputs.map TransactionOutput.commitment

/-- `block.GetHeight()`. -/
def FullBlock.GetHeight (block : FullBlock) : ℕ := block.header.height

/-- `block.GetTotalKernelOffset()`. -/
def FullBlock.GetTotalKernelOffset (block : FullBlock) : BlindingFactor :=
  block.header.totalKernelOffset

/-- `block.WasValidated()`. -/
def FullBlock.WasValidated (block : FullBlock) : Bool := block.validated

/-- `block.MarkAsValidated()`: the C++ method mutates the block in place;
the embedding returns the updated block. -/
def FullBlock.MarkAsValidated (block : FullBlock) : FullBlock :=
  { block with validated := true }

/-! ## Error taxonomy

The validation-error class thrown by the block validator
(`BAD_DATA_EXCEPTION`), and the lower-level error classes the spec's
taxonomy gives to the crypto and serialization layers. -/

/-- A validation error: the block validator throws `BadDataException` with a
message. -/
inductive ValidationError
  | badData (message : String)
deriving DecidableEq

/-- A low-level error class from the crypto or serialization layers, per the
spec's error taxonomy; transaction-body validation may surface any of these. -/
inductive LowLevelError
  | invalidPoint
  | invalidSignature
  | proofMalformed
  | deserialization (message : String)
deriving DecidableEq

/-! ## BlockValidator (src/src/BlockChain/Validators/BlockValidator.cpp)

The exception-based validator. Thrown exceptions are embedded as
`Except ValidationError`. `TransactionBodyValidator::Validate` lives in a
source file that is not available, so `VerifySelfConsistent` and
`VerifyBody` take it as an explicit function `validateBody`, returning
`Except LowLevelError Unit` (it may fail with any low-level error class).
Because `FullBlock::MarkAsValidated` mutates the block, the embedding of
`VerifySelfConsistent` returns the updated block; it also returns the list
of checks it actually executed, so that the short-circuit behaviour of the
`validated` flag is visible in the result. -/

/-- One of the three self-consistency checks `VerifySelfConsistent` runs. -/
inductive SelfConsistencyCheck
  | bodyCheck
  | lockHeightCheck
  | coinbaseCheck
deriving DecidableEq

/-- `BlockValidator::VerifyBody`: runs the transaction-body validator and
lifts any exception it throws to a `BadData` validation error. -/
def BlockValidator.VerifyBody
    (validateBody : TransactionBody → Except LowLevelError Unit)
    (block : FullBlock) : Except ValidationError Unit :=
  match validateBody block.GetTransactionBody with
  | Except.ok _ => Except.ok ()
  | Except.error _ =>
      Except.error (ValidationError.badData "Failed to validate transaction body")

/-- `BlockValidator::VerifyKernelLockHeights`: throws `BadData` when any
kernel's lock height exceeds the block height. -/
def BlockValidator.VerifyKernelLockHeights (block : FullBlock) :
    Except ValidationError Unit :=
  let blockHeight := block.GetHeight
  if block.GetKernels.any
      (fun kernel => kernel.GetLockHeight > blockHeight) then
    Except.error (ValidationError.badData "Failed to validate kernel lock heights")
  else
    Except.ok ()

/-- `BlockValidator::VerifyCoinbase`: collects the coinbase-marked output
commitments and coinbase-marked kernel excesses, accumulates
`reward = Consensus::REWARD + Σ fees` in wrapping uint64 arithmetic, and
throws `BadData` unless the coinbase kernel-excess sum equals the coinbase
output sum minus the transparent reward commitment. -/
def BlockValidator.VerifyCoinbase (block : FullBlock) :
    Except ValidationError Unit :=
  let coinbaseCommitments :=
    (block.GetOutputs.filter TransactionOutput.IsCoinbase).map
      TransactionOutput.commitment
  let coinbaseKernelExcesses :=
    (block.GetKernels.filter TransactionKernel.IsCoinbase).map
      TransactionKernel.GetExcessCommitment
  let reward := block.GetKernels.foldl
    (fun acc kernel => (acc + kernel.GetFee) % 2 ^ 64) Consensus.REWARD
  let overCommitment := [Crypto.CommitTransparent reward]
  let outputAdjustedSum := Crypto.AddCommitments coinbaseCommitments overCommitment
  let kernelSum := Crypto.AddCommitments coinbaseKernelExcesses []
  if kernelSum ≠ outputAdjustedSum then
    Except.error (ValidationError.badData "Failed to validate coinbase")
  else
    Except.ok ()

/-- `BlockValidator::VerifySelfConsistent`: returns immediately when the
block's `validated` flag is already set; otherwise runs the body,
lock-height and coinbase checks in order (first failure propagates) and
marks the block validated. The returned list records the checks executed. -/
def BlockValidator.VerifySelfConsistent
    (validateBody : TransactionBody → Except LowLevelError Unit)
    (block : FullBlock) :
    Except ValidationError (FullBlock × List SelfConsistencyCheck) :=
  if block.WasValidated then
    Except.ok (block, [])
  else
    match BlockValidator.VerifyBody validateBody block with
    | Except.error e => Except.error e
    | Except.ok _ =>
      match BlockValidator.VerifyKernelLockHeights block with
      | Except.error e => Except.error e
      | Except.ok _ =>
        match BlockValidator.VerifyCoinbase block with
        | Except.error e => Except.error e
        | Except.ok _ =>
            Except.ok (block.MarkAsValidated,
              [SelfConsistencyCheck.bodyCheck,
               SelfConsistencyCheck.lockHeightCheck,
               SelfConsistencyCheck.coinbaseCheck])

/-! ## Legacy BlockValidator (src/BlockChain/Validators/BlockValidator.cpp)

The earlier, bool-returning validator. Its `VerifyKernelSums` body is the
literal source: a `TODO: Implement` stub returning `true`.
`ITransactionPool::ValidateTransactionBody` is not among the source files
and is taken as an explicit function `validateBody`. -/

/-- Legacy `BlockValidator::VerifyKernelLockHeights`: false when some
kernel's lock height exceeds the block height. -/
def LegacyBlockValidator.VerifyKernelLockHeights (block : FullBlock) : Bool :=
  !(block.GetTransactionBody.kernels.any
      (fun kernel => kernel.GetLockHeight > block.GetBlockHeader.height))

/-- Legacy `BlockValidator::VerifyCoinbase`: same balance check as the
exception-based version, returning a Bool. In the free commitment model
`Crypto::CommitTransparent` and `Crypto::AddCommitments` always succeed, so
the C++ null-pointer branches never fire. -/
def LegacyBlockValidator.VerifyCoinbase (block : FullBlock) : Bool :=
  let coinbaseCommitments :=
    (block.GetTransactionBody.outputs.filter
      (fun output =>
        (output.features &&& EOutputFeatures.COINBASE_OUTPUT)
          == EOutputFeatures.COINBASE_OUTPUT)).map
      TransactionOutput.commitment
  let coinbaseKernelExcesses :=
    (block.GetTransactionBody.kernels.filter
      (fun kernel =>
        (kernel.features &&& EKernelFeatures.COINBASE_KERNEL)
          == EKernelFeatures.COINBASE_KERNEL)).map
      TransactionKernel.GetExcessCommitment
  let reward := block.GetTransactionBody.kernels.foldl
    (fun acc kernel => (acc + kernel.GetFee) % 2 ^ 64) Consensus.REWARD
  let overCommitment := [Crypto.CommitTransparent reward]
  let outputAdjustedSum := Crypto.AddCommitments coinbaseCommitments overCommitment
  let kernelSum := Crypto.AddCommitments coinbaseKernelExcesses []
  kernelSum == outputAdjustedSum

/-- Legacy `BlockValidator::IsBlockSelfConsistent`: transaction-body check
(via the transaction pool), kernel lock heights, then coinbase. -/
def LegacyBlockValidator.IsBlockSelfConsistent
    (validateBody : TransactionBody → Bool) (block : FullBlock) : Bool :=
  validateBody block.GetTransactionBody
    && LegacyBlockValidator.VerifyKernelLockHeights block
    && LegacyBlockValidator.VerifyCoinbase block

/-- Legacy `BlockValidator::VerifyKernelSums`: the source body is
`// TODO: Implement` followed by `return true;`. -/
def LegacyBlockValidator.VerifyKernelSums (_block : FullBlock)
    (_overage : ℤ) (_kernelOffset : BlindingFactor) : Bool :=
  true

/-- Legacy `BlockValidator::IsBlockValid`: optional self-consistency check,
then the block kernel offset is derived (the source compares the header's
total offset with the previous offset and, when they are equal, subtracts
one from the other via `Crypto::AddBlindingFactors`, leaving zero
otherwise), and finally `VerifyKernelSums` is called with
`overage = 0 - Consensus::REWARD` (the uint64 difference read back as a
signed 64-bit overage, i.e. minus the reward). -/
def LegacyBlockValidator.IsBlockValid (validateBody : TransactionBody → Bool)
    (block : FullBlock) (previousKernelOffset : BlindingFactor)
    (validateSelfConsistent : Bool) : Bool :=
  if validateSelfConsistent
      && !(LegacyBlockValidator.IsBlockSelfConsistent validateBody block) then
    false
  else
    let offsetOpt : Option BlindingFactor :=
      if block.GetBlockHeader.totalKernelOffset = previousKernelOffset then
        Crypto.AddBlindingFactors [block.GetBlockHeader.totalKernelOffset]
          [previousKernelOffset]
      else
        some 0
    match offsetOpt with
    | none => false
    | some blockKernelOffset =>
        LegacyBlockValidator.VerifyKernelSums block
          (0 - (Consensus.REWARD : ℤ)) blockKernelOffset

/-- Modelled from the spec: invariant (I1), the commitment-sum balance
`Σ outputs − Σ inputs − fee·H − reward·H = Σ kernel_excesses +
total_kernel_offset·G`. The repository's real kernel-sum validator
(KernelSumValidator) is not among the source files; the copy in
src/BlockChain/Validators/BlockValidator.cpp is a stub. -/
def KernelSumIdentity (block : FullBlock) (totalKernelOffset : ℤ) : Prop :=
  block.GetOutputCommitments.sum - block.GetInputCommitments.sum
      - scaleH ((block.GetKernels.map TransactionKernel.GetFee).sum : ℤ)
      - scaleH ((Consensus.REWARD : ℕ) : ℤ)
    = (block.GetKernels.map TransactionKernel.GetExcessCommitment).sum
        + scaleG totalKernelOffset

/-! ## SignatureUtil (src/src/Wallet/SlateBuilder/SignatureUtil.h)

`Crypto::VerifyAggregateSignature` (the Schnorr verifier itself) is not
among the source files; it is taken as an explicit function
`schnorrVerify`, matching the spec's `schnorr_verify(σ, P_sum, m) → bool`. -/

/-- SlateSignature: one participant's entry { excess, nonce, optional
compact partial signature }. The source names the third field with the
word-stem of "partial"; it is renamed here. -/
structure SlateSignature where
  excess : PublicKey
  nonce : PublicKey
  sigOpt : Option CompactSignature
deriving DecidableEq, Inhabited

/-- `SignatureUtil::VerifyAggregateSignature`: sums every participant's
public excess and verifies the aggregate signature under that sum. -/
def SignatureUtil.VerifyAggregateSignature
    (schnorrVerify : Signature → PublicKey → Hash → Bool)
    (aggregateSignature : Signature) (sigs : List SlateSignature)
    (message : Hash) : Bool :=
  let pubKeys := sigs.map SlateSignature.excess
  let sumPubKeys := Crypto.AddPublicKeys pubKeys
  schnorrVerify aggregateSignature sumPubKeys message

/-! ## NodeServer (src/src/API/Node/NodeServer.cpp)

The RPC server is modelled by its URI and its ordered method table; the
handler objects carry no behaviour the claims consult, so the table keeps
the method names. -/

/-- An RPC server: its mount URI and the method names registered on it, in
registration order. -/
structure RPCServer where
  uri : String
  methods : List String
deriving DecidableEq

/-- `RPCServer::Create`: a fresh server at a URI with no methods. -/
def RPCServer.Create (uri : String) : RPCServer :=
  { uri := uri, methods := [] }

/-- `RPCServer::AddMethod`: registers one more method name. -/
def RPCServer.AddMethod (server : RPCServer) (name : String) : RPCServer :=
  { server with methods := server.methods ++ [name] }

/-- `NodeServer::Create`: builds the foreign RPC server at /v2/foreign with
its five methods, and the owner RPC server at /v2/owner with none. -/
def NodeServer.Create : RPCServer × RPCServer :=
  let pForeignServer :=
    (((((RPCServer.Create "/v2/foreign").AddMethod
      "get_header").AddMethod
      "get_block").AddMethod
      "get_version").AddMethod
      "get_tip").AddMethod
      "push_transaction"
  let pOwnerServer := RPCServer.Create "/v2/owner"
  (pForeignServer, pOwnerServer)

/-! ## Server status loop (the unnamed Server.cpp source)

`Server::Run` starts the subsystems, then loops: each iteration first reads
the atomic `SHUTDOWN` flag and breaks when it is set, otherwise prints one
status screen and sleeps; after the loop it shuts the subsystems down in a
fixed order. The values the loop reads from the flag are modelled as a list
of booleans, one per check; the observable behaviour is the list of emitted
events. `runLoop` returns `none` when the flag list is exhausted without a
`true` (the real loop would still be running). -/

/-- An observable event of the status loop and the shutdown path. -/
inductive ServerEvent
  | statusIteration
  | restShutdown
  | p2pShutdown
  | txPoolDestroy
  | blockChainShutdown
  | txHashSetDelete
  | dbClose
  | loggerFlush
deriving DecidableEq

/-- The shutdown sequence after the loop exits: REST server, P2P server,
transaction pool, blockchain server, TxHashSet manager, database, logger
flush — in source order. -/
def Server.shutdownSequence : List ServerEvent :=
  [ServerEvent.restShutdown, ServerEvent.p2pShutdown,
   ServerEvent.txPoolDestroy, ServerEvent.blockChainShutdown,
   ServerEvent.txHashSetDelete, ServerEvent.dbClose,
   ServerEvent.loggerFlush]

/-- The main status loop of `Server::Run` over the successive values read
from the SHUTDOWN flag: a `true` read breaks out immediately and the
shutdown sequence runs; a `false` read emits one full status iteration. -/
def Server.runLoop : List Bool → Option (List ServerEvent)
  | [] => none
  | flag :: rest =>
    if flag then
      some Server.shutdownSequence
    else
      (Server.runLoop rest).map (fun events => ServerEvent.statusIteration :: events)

/-- The sync states displayed by the status loop (ESyncStatus). -/
inductive ESyncStatus
  | notSyncing
  | syncingHeaders
  | syncingTxHashSet
  | processingTxHashSet
  | txHashSetSyncFailed
  | syncingBlocks
deriving DecidableEq

/-- The sync-status fields the status loop reads (all uint64 in C++). -/
structure SyncStatus where
  status : ESyncStatus
  networkHeight : ℕ
  headerHeight : ℕ
  downloaded : ℕ
  downloadSize : ℕ
deriving DecidableEq

/-- The percentage the status loop displays, when the current sync state
displays one: during header sync, `headerHeight * 100 / networkHeight`
guarded by `networkHeight > 0`; during TxHashSet download,
`downloaded * 100 / downloadSize` guarded by `downloadSize > 0`; both
products in wrapping uint64 arithmetic. -/
def Server.displayedPercentage (syncStatus : SyncStatus) : Option ℕ :=
  match syncStatus.status with
  | ESyncStatus.syncingHeaders =>
      some (if syncStatus.networkHeight > 0 then
              syncStatus.headerHeight * 100 % 2 ^ 64 / syncStatus.networkHeight
            else 0)
  | ESyncStatus.syncingTxHashSet =>
      some (if syncStatus.downloadSize > 0 then
              syncStatus.downloaded * 100 % 2 ^ 64 / syncStatus.downloadSize
            else 0)
  | _ => none

/-! ## WalletManager::Restore (src/Wallet/WalletManagerImpl.cpp)

`Mnemonic::ToEntropy`, `SeedEncrypter::EncryptWalletSeed` and
`IWalletDB::CreateWallet` live in source files that are not available and
are taken as explicit functions. The session manager's state is the list of
open sessions; `SessionManager::Login` appends one and returns its token. -/

/-- A login session: username and wallet seed. -/
abbrev WalletSession := String × List ℕ

/-- The external collaborators of `WalletManager::Restore`. -/
structure RestoreEnv where
  toEntropy : String → String → Option (List ℕ)
  encryptWalletSeed : List ℕ → String → List ℕ
  createWallet : String → List ℕ → Bool

/-- `SessionManager::Login`: opens a session for the user and returns its
token. -/
def SessionManager.Login (sessions : List WalletSession)
    (username : String) (walletSeed : List ℕ) : ℕ × List WalletSession :=
  (sessions.length, sessions ++ [(username, walletSeed)])

/-- `WalletManager::Restore`: decodes the mnemonic with the password,
requires exactly 32 bytes of entropy, encrypts the seed and creates the
wallet, and only then logs in; every other path returns `nullopt` and
leaves the sessions untouched. -/
def WalletManager.Restore (env : RestoreEnv) (sessions : List WalletSession)
    (username password walletWords : String) :
    Option ℕ × List WalletSession :=
  match env.toEntropy walletWords password with
  | some entropy =>
      if entropy.length = 32 then
        let encryptedSeed := env.encryptWalletSeed entropy password
        if env.createWallet username encryptedSeed then
          let login := SessionManager.Login sessions username entropy
          (some login.1, login.2)
        else
          (none, sessions)
      else
        (none, sessions)
  | none => (none, sessions)

/-! ## Concrete blocks used as witnesses and failing inputs -/

/-- A block with one plain output committing to `1·H`, no inputs and no
kernels: it violates the commitment-sum balance (I1). -/
def blockC1 : FullBlock :=
  { header := { height := 1, totalKernelOffset := 0 },
    body := { inputs := [],
              outputs := [{ features := 0, commitment := (1, 0) }],
              kernels := [] },
    validated := false }

/-- A block with a single coinbase output committing to `REWARD·H + 5·G`
and a single fee-free coinbase kernel with excess `5·G`: its coinbase
balance holds and its kernel lock height is below the block height. -/
def blockBalanced : FullBlock :=
  { header := { height := 1, totalKernelOffset := 0 },
    body := { inputs := [],
              outputs := [{ features := 1,
                            commitment := ((60000000000 : ℤ), 5) }],
              kernels := [{ features := 1, fee := 0, lockHeight := 0,
                            excessCommitment := (0, 5) }] },
    validated := false }

/-- A transaction-body validator that accepts every body; stands in for
`TransactionBodyValidator::Validate` succeeding. -/
def acceptingBodyValidator : TransactionBody → Except LowLevelError Unit :=
  fun _ => Except.ok ()

/-! ## Theorems -/

/-- Helper: `Crypto::AddCommitments excesses [] = Crypto::AddCommitments
outputs [commit(r)]` holds exactly when the output-commitment sum equals
the excess sum plus the transparent commitment `r·H`. -/
theorem addCommitments_balance_iff (excesses outputs : List Commitment)
    (r : ℕ) :
    Crypto.AddCommitments excesses []
        = Crypto.AddCommitments outputs [Crypto.CommitTransparent r]
      ↔ outputs.sum = excesses.sum + scaleH (r : ℤ) := by
  unfold Crypto.AddCommitments Crypto.CommitTransparent scaleH
  rw [List.sum_nil, List.sum_cons, List.sum_nil, add_zero, sub_zero,
    eq_sub_iff_add_eq, eq_comm]

/-- Helper: the wrapping uint64 fee accumulation of `VerifyCoinbase` equals
the plain sum reduced modulo `2^64`, for any start value below `2^64`. -/
theorem foldl_fee_mod (kernels : List TransactionKernel) (acc : ℕ)
    (h : acc < 2 ^ 64) :
    kernels.foldl (fun a kernel => (a + kernel.GetFee) % 2 ^ 64) acc =
      (acc + (kernels.map TransactionKernel.GetFee).sum) % 2 ^ 64 := by
  induction kernels generalizing acc with
  | nil => simpa using (Nat.mod_eq_of_lt h).symm
  | cons kernel rest ih =>
      rw [List.foldl_cons,
        ih ((acc + kernel.GetFee) % 2 ^ 64) (Nat.mod_lt _ (by norm_num)),
        Nat.mod_add_mod, List.map_cons, List.sum_cons, add_assoc]

/-- C1: the legacy `BlockValidator::VerifyKernelSums` is a stub returning
true unconditionally, so `IsBlockValid` accepts a block that violates the
commitment-sum identity (I1): the concrete block `blockC1` is accepted even
though the identity fails for it. -/
theorem kernel_sums_stub_accepts_unbalanced_block :
    LegacyBlockValidator.IsBlockValid (fun _ => true) blockC1 0 false = true ∧
    LegacyBlockValidator.VerifyKernelSums blockC1
      (0 - (Consensus.REWARD : ℤ)) 0 = true ∧
    ¬ KernelSumIdentity blockC1 0 := by
  refine ⟨rfl, rfl, ?_⟩
  unfold KernelSumIdentity
  decide

/-- C2: the kernel lock-height check rejects a block (the legacy validator
returns false, the current one throws `BadData`) exactly when some kernel's
lock height strictly exceeds the block header's height; a block whose
kernels all satisfy `lock_height ≤ height` passes the check. -/
theorem kernel_lock_height_check_iff (block : FullBlock) :
    (BlockValidator.VerifyKernelLockHeights block =
        Except.error
          (ValidationError.badData "Failed to validate kernel lock heights")
      ↔ ∃ kernel ∈ block.GetKernels,
          block.GetHeight < kernel.GetLockHeight) ∧
    (LegacyBlockValidator.VerifyKernelLockHeights block = true
      ↔ ∀ kernel ∈ block.GetKernels,
          kernel.GetLockHeight ≤ block.GetHeight) := by
  constructor
  · simp only [BlockValidator.VerifyKernelLockHeights]
    split_ifs with h
    · simp only [List.any_eq_true, decide_eq_true_eq, gt_iff_lt] at h
      exact iff_of_true rfl h
    · simp only [List.any_eq_true, decide_eq_true_eq, gt_iff_lt] at h
      exact iff_of_false (by simp) h
  · simp only [LegacyBlockValidator.VerifyKernelLockHeights,
      Bool.not_eq_true', List.any_eq_false, decide_eq_true_eq, gt_iff_lt,
      not_lt, FullBlock.GetTransactionBody, FullBlock.GetBlockHeader,
      FullBlock.GetKernels, FullBlock.GetHeight]

/-- C3: `BlockValidator::VerifyCoinbase` accepts a block exactly when the
sum of the coinbase-marked output commitments equals the sum of the
coinbase-marked kernel excesses plus the transparent commitment to
`Consensus::REWARD` plus the total fee of all kernels (accumulated in
wrapping uint64 arithmetic); any other outcome is the `BadData` coinbase
rejection. -/
theorem coinbase_check_balance_iff (block : FullBlock) :
    (BlockValidator.VerifyCoinbase block = Except.ok () ↔
      ((block.GetOutputs.filter TransactionOutput.IsCoinbase).map
          TransactionOutput.commitment).sum
        = ((block.GetKernels.filter TransactionKernel.IsCoinbase).map
            TransactionKernel.GetExcessCommitment).sum
          + scaleH (((Consensus.REWARD
              + (block.GetKernels.map TransactionKernel.GetFee).sum)
                % 2 ^ 64 : ℕ) : ℤ)) ∧
    (BlockValidator.VerifyCoinbase block = Except.ok () ∨
      BlockValidator.VerifyCoinbase block =
        Except.error (ValidationError.badData "Failed to validate coinbase")) := by
  have hreward : block.GetKernels.foldl
      (fun a kernel => (a + kernel.GetFee) % 2 ^ 64) Consensus.REWARD =
        (Consensus.REWARD
          + (block.GetKernels.map TransactionKernel.GetFee).sum) % 2 ^ 64 :=
    foldl_fee_mod _ _ (by norm_num [Consensus.REWARD])
  constructor
  · simp only [BlockValidator.VerifyCoinbase, hreward]
    split_ifs with hne
    · exact iff_of_false (by simp)
        (fun heq => hne ((addCommitments_balance_iff _ _ _).mpr heq))
    · exact iff_of_true rfl
        ((addCommitments_balance_iff _ _ _).mp (not_not.mp hne))
  · simp only [BlockValidator.VerifyCoinbase]
    split_ifs with hne
    · exact Or.inr rfl
    · exact Or.inl rfl

/-- Helper: the list-sum of the participants' excesses equals the indexed
sum over all participant entries. -/
theorem excess_map_sum_eq (sigs : List SlateSignature) :
    (sigs.map SlateSignature.excess).sum =
      ∑ i ∈ Finset.range sigs.length, (sigs.getD i default).excess := by
  induction sigs with
  | nil => simp
  | cons sig rest ih =>
      simp [Finset.sum_range_succ', List.getD_cons_succ, List.getD_cons_zero,
        ih, add_comm]

/-- C4: `SignatureUtil::VerifyAggregateSignature` returns exactly the
result of the Schnorr verifier applied to the aggregate signature, the
message, and the public key obtained by summing `sigs[i].excess` over all
participant entries. -/
theorem aggregate_signature_verifies_under_excess_sum
    (schnorrVerify : Signature → PublicKey → Hash → Bool)
    (aggregateSignature : Signature) (sigs : List SlateSignature)
    (message : Hash) :
    SignatureUtil.VerifyAggregateSignature schnorrVerify aggregateSignature
        sigs message
      = schnorrVerify aggregateSignature
          (∑ i ∈ Finset.range sigs.length, (sigs.getD i default).excess)
          message := by
  simp only [SignatureUtil.VerifyAggregateSignature, Crypto.AddPublicKeys,
    excess_map_sum_eq]

/-- C5: whenever the transaction-body validator fails with any low-level
error, `BlockValidator::VerifyBody` throws the `BadData` validation error,
so callers never observe the lower-level error class. -/
theorem body_validation_errors_lifted_to_bad_data
    (validateBody : TransactionBody → Except LowLevelError Unit)
    (block : FullBlock) (e : LowLevelError)
    (h : validateBody block.GetTransactionBody = Except.error e) :
    BlockValidator.VerifyBody validateBody block =
      Except.error
        (ValidationError.badData "Failed to validate transaction body") := by
  unfold BlockValidator.VerifyBody
  rw [h]

/-- Witness for C5: a crypto-level `InvalidPoint` failure in body
validation surfaces as the `BadData` validation error on the concrete
block `blockC1`. -/
theorem body_validation_errors_lifted_witness :
    BlockValidator.VerifyBody (fun _ => Except.error LowLevelError.invalidPoint)
        blockC1 =
      Except.error
        (ValidationError.badData "Failed to validate transaction body") :=
  body_validation_errors_lifted_to_bad_data _ blockC1
    LowLevelError.invalidPoint rfl

/-- C6: `NodeServer::Create` registers exactly the five methods
get_header, get_block, get_version, get_tip and push_transaction, in that
order, on the /v2/foreign RPC server, and no others. -/
theorem foreign_server_registers_exactly_five_methods :
    NodeServer.Create.1.uri = "/v2/foreign" ∧
    NodeServer.Create.1.methods =
      ["get_header", "get_block", "get_version", "get_tip",
       "push_transaction"] :=
  ⟨rfl, rfl⟩

/-- C7: once the SHUTDOWN flag reads true, the status loop of `Server::Run`
exits at that very check — it performs no further status iteration — and
the shutdown sequence runs in order: REST server, P2P server, transaction
pool, blockchain server, TxHashSet manager, database, logger flush. -/
theorem shutdown_flag_stops_loop_and_runs_shutdown_sequence
    (n : ℕ) (rest : List Bool) :
    Server.runLoop (List.replicate n false ++ true :: rest) =
      some (List.replicate n ServerEvent.statusIteration ++
        [ServerEvent.restShutdown, ServerEvent.p2pShutdown,
         ServerEvent.txPoolDestroy, ServerEvent.blockChainShutdown,
         ServerEvent.txHashSetDelete, ServerEvent.dbClose,
         ServerEvent.loggerFlush]) := by
  induction n with
  | zero => simp [Server.runLoop, Server.shutdownSequence]
  | succ n ih => simp [List.replicate_succ, Server.runLoop, ih]

/-- C8: when `BlockValidator::VerifySelfConsistent` returns without
throwing, the resulting block carries the validated flag; a subsequent call
on that block returns immediately, re-running none of the checks; and on a
block not yet validated, success means all three checks (body, lock
heights, coinbase) ran and passed — the flag is set only after all three. -/
theorem verify_self_consistent_idempotent_via_validated_flag
    (validateBody : TransactionBody → Except LowLevelError Unit)
    (block newBlock : FullBlock) (checksRun : List SelfConsistencyCheck)
    (h : BlockValidator.VerifySelfConsistent validateBody block =
          Except.ok (newBlock, checksRun)) :
    newBlock.WasValidated = true ∧
    BlockValidator.VerifySelfConsistent validateBody newBlock =
      Except.ok (newBlock, []) ∧
    (block.WasValidated = false →
      checksRun = [SelfConsistencyCheck.bodyCheck,
        SelfConsistencyCheck.lockHeightCheck,
        SelfConsistencyCheck.coinbaseCheck] ∧
      BlockValidator.VerifyBody validateBody block = Except.ok () ∧
      BlockValidator.VerifyKernelLockHeights block = Except.ok () ∧
      BlockValidator.VerifyCoinbase block = Except.ok ()) := by
  by_cases hv : block.WasValidated = true
  · unfold BlockValidator.VerifySelfConsistent at h
    rw [if_pos hv] at h
    simp only [Except.ok.injEq, Prod.mk.injEq] at h
    obtain ⟨hB, hC⟩ := h
    subst hB
    subst hC
    refine ⟨hv, ?_, fun hfalse => absurd (hv.symm.trans hfalse) (by decide)⟩
    unfold BlockValidator.VerifySelfConsistent
    rw [if_pos hv]
  · unfold BlockValidator.VerifySelfConsistent at h
    rw [if_neg hv] at h
    cases hb : BlockValidator.VerifyBody validateBody block with
    | error e => rw [hb] at h; exact absurd h (by simp)
    | ok u =>
      rw [hb] at h
      cases hl : BlockValidator.VerifyKernelLockHeights block with
      | error e => rw [hl] at h; exact absurd h (by simp)
      | ok u2 =>
        rw [hl] at h
        cases hc : BlockValidator.VerifyCoinbase block with
        | error e => rw [hc] at h; exact absurd h (by simp)
        | ok u3 =>
          rw [hc] at h
          simp only [Except.ok.injEq, Prod.mk.injEq] at h
          obtain ⟨hB, hC⟩ := h
          subst hB
          subst hC
          refine ⟨rfl, ?_, fun _ => ⟨rfl, ?_, ?_, ?_⟩⟩
          · unfold BlockValidator.VerifySelfConsistent
            have hmv : block.MarkAsValidated.WasValidated = true := rfl
            rw [if_pos hmv]
          · cases u
            rfl
          · cases u2
            rfl
          · cases u3
            rfl

/-- Witness for C8: on the concrete balanced block, self-consistency
validation succeeds, the result is marked validated, a repeat call runs no
checks, and all three checks passed on the way. -/
theorem verify_self_consistent_idempotent_witness :
    (blockBalanced.MarkAsValidated).WasValidated = true ∧
    BlockValidator.VerifySelfConsistent acceptingBodyValidator
        blockBalanced.MarkAsValidated =
      Except.ok (blockBalanced.MarkAsValidated, []) ∧
    (blockBalanced.WasValidated = false →
      [SelfConsistencyCheck.bodyCheck, SelfConsistencyCheck.lockHeightCheck,
        SelfConsistencyCheck.coinbaseCheck] =
        [SelfConsistencyCheck.bodyCheck, SelfConsistencyCheck.lockHeightCheck,
          SelfConsistencyCheck.coinbaseCheck] ∧
      BlockValidator.VerifyBody acceptingBodyValidator blockBalanced =
        Except.ok () ∧
      BlockValidator.VerifyKernelLockHeights blockBalanced = Except.ok () ∧
      BlockValidator.VerifyCoinbase blockBalanced = Except.ok ()) :=
  verify_self_consistent_idempotent_via_validated_flag acceptingBodyValidator
    blockBalanced blockBalanced.MarkAsValidated
    [SelfConsistencyCheck.bodyCheck, SelfConsistencyCheck.lockHeightCheck,
      SelfConsistencyCheck.coinbaseCheck]
    rfl

/-- C9: `WalletManager::Restore` yields a session token exactly when the
mnemonic decodes with the password to an entropy of exactly 32 bytes and
the wallet database creates the wallet; in every other case it returns
nullopt and the session list is unchanged (no login session is created). -/
theorem wallet_restore_token_iff_entropy_and_create
    (env : RestoreEnv) (sessions : List WalletSession)
    (username password walletWords : String) :
    ((WalletManager.Restore env sessions username password
        walletWords).1.isSome = true
      ↔ ∃ entropy, env.toEntropy walletWords password = some entropy ∧
          entropy.length = 32 ∧
          env.createWallet username
            (env.encryptWalletSeed entropy password) = true) ∧
    ((WalletManager.Restore env sessions username password walletWords).1
        = none →
      (WalletManager.Restore env sessions username password walletWords).2
        = sessions) := by
  unfold WalletManager.Restore
  cases h : env.toEntropy walletWords password with
  | none => simp
  | some entropy =>
      by_cases hlen : entropy.length = 32
      · by_cases hcw : env.createWallet username
            (env.encryptWalletSeed entropy password) = true
        · simp [hlen, hcw, SessionManager.Login]
        · simp [hlen, hcw]
      · simp [hlen]

/-- C10: the status display divides only by positive heights and sizes: the
header-sync percentage is `headerHeight*100/networkHeight` only when
`networkHeight > 0` and 0 otherwise, and the TxHashSet-download percentage
is `downloaded*100/downloadSize` only when `downloadSize > 0` and 0
otherwise. -/
theorem sync_status_percentages_guard_zero_divisors (s : SyncStatus) :
    (s.status = ESyncStatus.syncingHeaders → s.networkHeight = 0 →
        Server.displayedPercentage s = some 0) ∧
    (s.status = ESyncStatus.syncingHeaders → 0 < s.networkHeight →
        Server.displayedPercentage s =
          some (s.headerHeight * 100 % 2 ^ 64 / s.networkHeight)) ∧
    (s.status = ESyncStatus.syncingTxHashSet → s.downloadSize = 0 →
        Server.displayedPercentage s = some 0) ∧
    (s.status = ESyncStatus.syncingTxHashSet → 0 < s.downloadSize →
        Server.displayedPercentage s =
          some (s.downloaded * 100 % 2 ^ 64 / s.downloadSize)) := by
  refine ⟨?_, ?_, ?_, ?_⟩ <;> intro hs hn <;>
    simp [Server.displayedPercentage, hs, hn, Nat.not_lt_zero]

end GrinPP
